import Mathlib

/-!
Verification of the `NodeMainInstance` lifecycle core
(`src/node_main_instance.cc`).

The C++ class is shallowly embedded: the post-construction object is a Lean
structure whose fields mirror the C++ members, pointers are `Option Nat`
(pointer identities, `none` = null), and each member function is a Lean
function.  Results supplied by external collaborators (the engine's
`NewIsolate`, `NewContext`, `CreateEnvironment`, `SpinEventLoopInternal`,
the allocator factory, per-isolate options) are passed in explicitly as
oracle records, so that every control path of the source — including the
paths where a collaborator returns null — is represented.  Observable side
effects (task draining, isolate unregistration and disposal, context
creation, environment construction, crypto initialization, exit-code
writes) are recorded as an event trace, and a fatal `CHECK` failure is an
explicit `Fatal` value produced before any further event is emitted.
Compile-time configuration (`HAVE_OPENSSL`, `LEAK_SANITIZER`) is a
`BuildConfig` record.
-/

namespace node

/-- The `ExitCode` enumeration (`kNoFailure` = 0, `kGenericUserError` = 1,
further defined codes abstracted as `kOther`). -/
inductive ExitCode where
  | kNoFailure
  | kGenericUserError
  | kOther (code : Nat)
deriving DecidableEq, Repr

/-- A fatal `CHECK` abort, identified by the check site in
`node_main_instance.cc`. -/
inductive Fatal where
  /-- `CHECK_NOT_NULL(isolate_)`, line 77 (own-mode constructor). -/
  | checkNotNullIsolate
  /-- `CHECK_NULL(isolate_params_)`, line 94 (`Dispose`). -/
  | checkNullIsolateParams
  /-- `CHECK(!context.IsEmpty())`, line 160 (`CreateMainEnvironment`). -/
  | checkContextNotEmpty
  /-- `CHECK_NOT_NULL(env)`, line 115 (`Run`). -/
  | checkNotNullEnv
  /-- Null-instance precondition of borrow-mode construction. -/
  | checkNotNullIsolateOnBorrow
deriving DecidableEq, Repr

/-- Observable side effects of the lifecycle core. -/
inductive Event where
  /-- `platform_->DrainTasks(isolate_)`, line 95. -/
  | drainTasks (platform : Nat) (isolate : Option Nat)
  /-- `platform_->UnregisterIsolate(isolate_)`, line 103. -/
  | unregisterIsolate (platform : Nat) (isolate : Option Nat)
  /-- `isolate_->Dispose()`, line 104. -/
  | disposeIsolate (isolate : Option Nat)
  /-- `GetHeapProfiler()->StartTrackingHeapObjects(true)`, line 144. -/
  | startTrackingHeapObjects
  /-- `NewContext(isolate_)` returning `ctx` (`none` = empty handle), line 159. -/
  | newContext (ctx : Option Nat)
  /-- `Context::Scope context_scope(context)`, line 161. -/
  | enterContextScope (ctx : Nat)
  /-- `CreateEnvironment(isolate_data_, ctx, args_, exec_args_)`; the
  context argument is `none` on the snapshot path (empty `Local<Context>`,
  read from the snapshot, line 152) and `some ctx` on the fresh path
  (line 163). -/
  | createEnvironmentCall (ctx : Option Nat)
  /-- `crypto::InitCryptoOnce(isolate_)`, line 156. -/
  | initCryptoOnce (isolate : Option Nat)
  /-- `LoadEnvironment(env, StartExecutionCallback{})`, line 124. -/
  | loadEnvironment (env : Nat)
  /-- `SpinEventLoopInternal(env)`, line 127. -/
  | spinEventLoop (env : Nat)
  /-- `__lsan_do_leak_check()`, line 131. -/
  | lsanLeakCheck
  /-- A store through the `ExitCode*` out-parameter (lines 112, 126, 137). -/
  | setExitCode (code : ExitCode)
deriving DecidableEq, Repr

/-- Compile-time configuration of the translation unit. -/
structure BuildConfig where
  have_openssl : Bool
  leak_sanitizer : Bool
deriving DecidableEq, Repr

/-- An opaque snapshot blob (`const SnapshotData*` target), identified by
an id; the Manager never reads into it in this file beyond passing it on. -/
structure SnapshotData where
  id : Nat
deriving DecidableEq, Repr

/-- `Isolate::CreateParams` as configured by the own-mode constructor:
the allocator pointer stored at line 73 and the young-generation
constraint read back at line 88. -/
structure CreateParams where
  array_buffer_allocator : Option Nat
  max_young_generation_size_in_bytes : Nat
deriving DecidableEq, Repr

/-- The `IsolateData` attached to the instance (post-construction view):
creation arguments plus the options and derived limit used later. -/
structure IsolateData where
  isolate : Option Nat
  event_loop : Nat
  platform : Nat
  allocator : Option Nat
  embedder_wrapper : Option Nat
  /-- `options()->track_heap_objects`, read at line 143. -/
  track_heap_objects : Bool
  /-- Set only by the own-mode constructor (lines 87-88). -/
  max_young_gen_size : Option Nat
deriving DecidableEq, Repr

/-- Post-construction state of a `NodeMainInstance`; field names follow the
C++ members. -/
structure NodeMainInstance where
  args_ : List String
  exec_args_ : List String
  array_buffer_allocator_ : Option Nat
  isolate_ : Option Nat
  platform_ : Nat
  isolate_data_ : IsolateData
  isolate_params_ : Option CreateParams
  snapshot_data_ : Option SnapshotData
deriving DecidableEq, Repr

/-- Modelled from the spec: the body of `SetIsolateMiscHandlers` (called at
line 47) is not among this repository's source files.  Per the spec's
borrow-mode contract ("Precondition: instance is non-null"; "null instance
on borrow ... abort the process immediately"), it requires a non-null
isolate and aborts fatally otherwise. -/
def SetIsolateMiscHandlers (isolate : Option Nat) : Except Fatal Unit :=
  match isolate with
  | none => .error Fatal.checkNotNullIsolateOnBorrow
  | some _ => .ok ()

/-- Modelled from the spec: the body of `SnapshotData::AsEmbedderWrapper`
(called at line 85) is not among this repository's source files.  Per the
spec the Snapshot Handle is "possibly null" and owning-mode construction
succeeds with a null handle, so the wrapper call is null-tolerant: it
yields a wrapper exactly when a snapshot is present. -/
def snapshotAsEmbedderWrapper (sd : Option SnapshotData) : Option Nat :=
  sd.map SnapshotData.id

/-- Results supplied by the engine during own-mode construction:
the allocator identity from `ArrayBufferAllocator::Create()` (line 67),
the isolate returned by `NewIsolate` (line 75, `none` = creation failed),
the young-generation constraint configured by `NewIsolate` (read at
line 88), and the per-isolate `track_heap_objects` option. -/
structure EngineOracle where
  allocatorId : Nat
  newIsolateResult : Option Nat
  maxYoungGenSize : Nat
  trackHeapObjects : Bool
deriving DecidableEq, Repr

/-- Borrow-mode constructor, `node_main_instance.cc` lines 32-48: adopts an
externally owned isolate; allocates no allocator and no
`Isolate::CreateParams`; `snapshot_data_` is initialized to null
(line 43).  `track_heap_objects` stands for the per-isolate option the
attached `IsolateData` will expose. -/
def NodeMainInstance.mkBorrowed (isolate : Option Nat) (event_loop : Nat)
    (platform : Nat) (args exec_args : List String)
    (track_heap_objects : Bool) : Except Fatal NodeMainInstance :=
  match SetIsolateMiscHandlers isolate with
  | .error f => .error f
  | .ok _ =>
    .ok { args_ := args
          exec_args_ := exec_args
          array_buffer_allocator_ := none
          isolate_ := isolate
          platform_ := platform
          isolate_data_ := { isolate := isolate
                             event_loop := event_loop
                             platform := platform
                             allocator := none
                             embedder_wrapper := none
                             track_heap_objects := track_heap_objects
                             max_young_gen_size := none }
          isolate_params_ := none
          snapshot_data_ := none }

/-- `NodeMainInstance::Create`, lines 50-58: the public factory for the
borrow-mode constructor. -/
def NodeMainInstance.Create (isolate : Option Nat) (event_loop : Nat)
    (platform : Nat) (args exec_args : List String)
    (track_heap_objects : Bool) : Except Fatal NodeMainInstance :=
  NodeMainInstance.mkBorrowed isolate event_loop platform args exec_args
    track_heap_objects

/-- Own-mode constructor, lines 60-89: creates a dedicated allocator,
builds `Isolate::CreateParams` referencing it (line 73), creates the
isolate via `NewIsolate` — fatal if that returns null (line 77) — then
attaches `IsolateData` (lines 80-85) and derives the maximum
young-generation size from the parameters' constraints (lines 87-88). -/
def NodeMainInstance.mkOwning (snapshot_data : Option SnapshotData)
    (event_loop : Nat) (platform : Nat) (args exec_args : List String)
    (o : EngineOracle) : Except Fatal NodeMainInstance :=
  match o.newIsolateResult with
  | none => .error Fatal.checkNotNullIsolate
  | some iso =>
    .ok { args_ := args
          exec_args_ := exec_args
          array_buffer_allocator_ := some o.allocatorId
          isolate_ := some iso
          platform_ := platform
          isolate_data_ := { isolate := some iso
                             event_loop := event_loop
                             platform := platform
                             allocator := some o.allocatorId
                             embedder_wrapper :=
                               snapshotAsEmbedderWrapper snapshot_data
                             track_heap_objects := o.trackHeapObjects
                             max_young_gen_size := some o.maxYoungGenSize }
          isolate_params_ :=
            some { array_buffer_allocator := some o.allocatorId
                   max_young_generation_size_in_bytes := o.maxYoungGenSize }
          snapshot_data_ := snapshot_data }

/-- `NodeMainInstance::Dispose`, lines 91-96: fatal unless the Manager does
not own its isolate (`CHECK_NULL(isolate_params_)`), then drains pending
platform tasks for the isolate.  The event list holds what was emitted
before any abort, so the fatal path drains nothing. -/
def NodeMainInstance.Dispose (m : NodeMainInstance) :
    List Event × Option Fatal :=
  match m.isolate_params_ with
  | some _ => ([], some Fatal.checkNullIsolateParams)
  | none => ([Event.drainTasks m.platform_ m.isolate_], none)

/-- `NodeMainInstance::~NodeMainInstance`, lines 98-105: a no-op for a
borrowed isolate (`isolate_params_` null, early return); for an owned
isolate, unregisters it from the platform and disposes it. -/
def NodeMainInstance.destructor (m : NodeMainInstance) : List Event :=
  match m.isolate_params_ with
  | none => []
  | some _ => [Event.unregisterIsolate m.platform_ m.isolate_,
               Event.disposeIsolate m.isolate_]

/-- Results supplied by collaborators during `CreateMainEnvironment`:
the context from `NewContext` (line 159, `none` = empty handle) and the
environment pointer from `CreateEnvironment` (lines 151, 162; `none` =
null). -/
structure EnvOracle where
  newContextResult : Option Nat
  createEnvResult : Option Nat
deriving DecidableEq, Repr

/-- `NodeMainInstance::CreateMainEnvironment`, lines 135-167: resets the
exit code to `kNoFailure` (line 137), optionally starts heap-object
tracking (lines 143-145), then either builds the environment from the
snapshot (empty context handle, line 152) followed by one-time crypto
initialization when compiled with OpenSSL (lines 155-157), or creates a
fresh context — fatal if empty (line 160) — enters its scope and builds
the environment in it (lines 158-164).  Returns the (possibly null)
environment together with the exit code it stored. -/
def NodeMainInstance.CreateMainEnvironment (m : NodeMainInstance)
    (cfg : BuildConfig) (o : EnvOracle) :
    List Event × Except Fatal (Option Nat × ExitCode) :=
  let ev0 : List Event :=
    [Event.setExitCode ExitCode.kNoFailure] ++
      (if m.isolate_data_.track_heap_objects
        then [Event.startTrackingHeapObjects] else [])
  match m.snapshot_data_ with
  | some _ =>
    (ev0 ++ [Event.createEnvironmentCall none] ++
        (if cfg.have_openssl then [Event.initCryptoOnce m.isolate_] else []),
      .ok (o.createEnvResult, ExitCode.kNoFailure))
  | none =>
    match o.newContextResult with
    | none =>
      (ev0 ++ [Event.newContext none], .error Fatal.checkContextNotEmpty)
    | some ctx =>
      (ev0 ++ [Event.newContext (some ctx), Event.enterContextScope ctx,
               Event.createEnvironmentCall (some ctx)],
        .ok (o.createEnvResult, ExitCode.kNoFailure))

/-- `NodeMainInstance::Run(ExitCode*, Environment*)`, lines 122-133 (the
Execution Driver): if the incoming exit code is still `kNoFailure`, loads
the environment and spins the event loop, storing the loop's result and
defaulting to `kGenericUserError` when the loop yields no explicit value
(`FromMaybe`); otherwise does neither and leaves the exit code unchanged.
Either way the leak-audit hook runs afterwards in sanitizer builds.
`spinResult` is the `Maybe<ExitCode>` from `SpinEventLoopInternal`. -/
def NodeMainInstance.RunEnv (cfg : BuildConfig) (env : Nat)
    (exit_code : ExitCode) (spinResult : Option ExitCode) :
    List Event × ExitCode :=
  let (ev, ec) :=
    if exit_code = ExitCode.kNoFailure then
      let ec := spinResult.getD ExitCode.kGenericUserError
      ([Event.loadEnvironment env, Event.spinEventLoop env,
        Event.setExitCode ec], ec)
    else ([], exit_code)
  (ev ++ (if cfg.leak_sanitizer then [Event.lsanLeakCheck] else []), ec)

/-- Collaborator results consumed by one full `Run()`. -/
structure RunOracle where
  cme : EnvOracle
  spinResult : Option ExitCode
deriving DecidableEq, Repr

/-- `NodeMainInstance::Run()`, lines 107-120: initializes the exit code to
`kNoFailure` (line 112), creates the main environment, aborts if it is
null (`CHECK_NOT_NULL(env)`, line 115), then enters the environment's
context and delegates to the Execution Driver, returning the resulting
exit code. -/
def NodeMainInstance.Run (m : NodeMainInstance) (cfg : BuildConfig)
    (o : RunOracle) : List Event × Except Fatal ExitCode :=
  let r := m.CreateMainEnvironment cfg o.cme
  match r.2 with
  | .error f =>
    ([Event.setExitCode ExitCode.kNoFailure] ++ r.1, .error f)
  | .ok (none, _) =>
    ([Event.setExitCode ExitCode.kNoFailure] ++ r.1,
      .error Fatal.checkNotNullEnv)
  | .ok (some env, ec) =>
    let r2 := NodeMainInstance.RunEnv cfg env ec o.spinResult
    ([Event.setExitCode ExitCode.kNoFailure] ++ r.1 ++ r2.1, .ok r2.2)

/-- Event classifiers used to state trace properties. -/
def Event.isNewContext : Event → Bool
  | .newContext _ => true
  | _ => false

def Event.isCreateEnvironmentCall : Event → Bool
  | .createEnvironmentCall _ => true
  | _ => false

def Event.isSnapshotEnvCall : Event → Bool
  | .createEnvironmentCall none => true
  | _ => false

def Event.isInitCryptoOnce : Event → Bool
  | .initCryptoOnce _ => true
  | _ => false

def Event.isLoadEnvironment : Event → Bool
  | .loadEnvironment _ => true
  | _ => false

def Event.isSpinEventLoop : Event → Bool
  | .spinEventLoop _ => true
  | _ => false

def Event.isDisposeIsolate : Event → Bool
  | .disposeIsolate _ => true
  | _ => false

/-- The successive values stored through the `ExitCode*` out-parameter
during a trace. -/
def exitCodeWrites (evs : List Event) : List ExitCode :=
  evs.filterMap fun e =>
    match e with
    | .setExitCode c => some c
    | _ => none

/-- A write sequence never downgrades: once a value other than
`kNoFailure` has been stored, the next store repeats it. -/
def noDowngradeB : List ExitCode → Bool
  | [] => true
  | [_] => true
  | a :: b :: t =>
    (if a = ExitCode.kNoFailure then true
      else if b = a then true else false) && noDowngradeB (b :: t)

/-! Concrete constructions used by the witnesses. -/

/-- An engine oracle for a successful own-mode construction. -/
def engineOracleEx : EngineOracle :=
  { allocatorId := 5
    newIsolateResult := some 7
    maxYoungGenSize := 64
    trackHeapObjects := false }

/-- The Manager produced by own-mode construction without a snapshot, from
`engineOracleEx`. -/
def mOwnEx : NodeMainInstance :=
  { args_ := []
    exec_args_ := []
    array_buffer_allocator_ := some 5
    isolate_ := some 7
    platform_ := 0
    isolate_data_ := { isolate := some 7
                       event_loop := 0
                       platform := 0
                       allocator := some 5
                       embedder_wrapper := none
                       track_heap_objects := false
                       max_young_gen_size := some 64 }
    isolate_params_ := some { array_buffer_allocator := some 5
                              max_young_generation_size_in_bytes := 64 }
    snapshot_data_ := none }

/-- The Manager produced by own-mode construction with snapshot blob 1,
from `engineOracleEx`. -/
def mOwnSnapEx : NodeMainInstance :=
  { mOwnEx with
    isolate_data_ := { mOwnEx.isolate_data_ with embedder_wrapper := some 1 }
    snapshot_data_ := some { id := 1 } }

/-- The Manager produced by borrow-mode construction around isolate 3. -/
def mBorEx : NodeMainInstance :=
  { args_ := []
    exec_args_ := []
    array_buffer_allocator_ := none
    isolate_ := some 3
    platform_ := 0
    isolate_data_ := { isolate := some 3
                       event_loop := 0
                       platform := 0
                       allocator := none
                       embedder_wrapper := none
                       track_heap_objects := false
                       max_young_gen_size := none }
    isolate_params_ := none
    snapshot_data_ := none }

/-- A build without OpenSSL and without the leak sanitizer. -/
def cfgPlain : BuildConfig := { have_openssl := false, leak_sanitizer := false }

/-- A build with OpenSSL, without the leak sanitizer. -/
def cfgSsl : BuildConfig := { have_openssl := true, leak_sanitizer := false }

/-- Collaborators return context 9 and environment 2. -/
def eoOk : EnvOracle := { newContextResult := some 9, createEnvResult := some 2 }

/-- Context creation yields an empty handle. -/
def eoNoCtx : EnvOracle := { newContextResult := none, createEnvResult := some 2 }

/-- Environment bootstrapping returns null. -/
def eoNullEnv : EnvOracle := { newContextResult := some 9, createEnvResult := none }

/-! The claims. -/

/-- Claim C1: every Manager constructed in owning mode has non-null
Instance Parameters (`isolate_params_`) whose allocator pointer is exactly
the dedicated allocator created at construction and held by the Manager in
`array_buffer_allocator_` (a member released only with the Manager, hence
alive until destruction); every Manager constructed in borrowed mode has
null Instance Parameters and no allocator. -/
theorem c1_instance_params
    (sd : Option SnapshotData) (l p : Nat) (a e : List String)
    (o : EngineOracle) (m : NodeMainInstance)
    (iso : Option Nat) (l2 p2 : Nat) (a2 e2 : List String) (t : Bool)
    (m2 : NodeMainInstance)
    (hown : NodeMainInstance.mkOwning sd l p a e o = .ok m)
    (hbor : NodeMainInstance.mkBorrowed iso l2 p2 a2 e2 t = .ok m2) :
    m.isolate_params_.isSome = true
    ∧ m.isolate_params_.map CreateParams.array_buffer_allocator
        = some m.array_buffer_allocator_
    ∧ m.array_buffer_allocator_ = some o.allocatorId
    ∧ m2.isolate_params_ = none
    ∧ m2.array_buffer_allocator_ = none := by
  cases ho : o.newIsolateResult with
  | none => simp [NodeMainInstance.mkOwning, ho] at hown
  | some i =>
    cases iso with
    | none =>
      simp [NodeMainInstance.mkBorrowed, SetIsolateMiscHandlers] at hbor
    | some j =>
      simp [NodeMainInstance.mkOwning, ho] at hown
      simp [NodeMainInstance.mkBorrowed, SetIsolateMiscHandlers] at hbor
      subst hown
      subst hbor
      simp

/-- Witness for C1 at concrete constructions. -/
theorem c1_instance_params_witness :
    mOwnEx.isolate_params_.isSome = true
    ∧ mOwnEx.isolate_params_.map CreateParams.array_buffer_allocator
        = some mOwnEx.array_buffer_allocator_
    ∧ mOwnEx.array_buffer_allocator_ = some engineOracleEx.allocatorId
    ∧ mBorEx.isolate_params_ = none
    ∧ mBorEx.array_buffer_allocator_ = none :=
  c1_instance_params none 0 0 [] [] engineOracleEx mOwnEx
    (some 3) 0 0 [] [] false mBorEx rfl rfl

/-- Claim C2: `Dispose()` on an owning-mode Manager hits the fatal guard
with no event emitted first (in particular no task draining), while
`Dispose()` on a borrowed-mode Manager succeeds, drains the pending
platform tasks for the instance, and emits no instance-disposal event. -/
theorem c2_dispose
    (sd : Option SnapshotData) (l p : Nat) (a e : List String)
    (o : EngineOracle) (m : NodeMainInstance)
    (iso : Option Nat) (l2 p2 : Nat) (a2 e2 : List String) (t : Bool)
    (m2 : NodeMainInstance)
    (hown : NodeMainInstance.mkOwning sd l p a e o = .ok m)
    (hbor : NodeMainInstance.mkBorrowed iso l2 p2 a2 e2 t = .ok m2) :
    m.Dispose = ([], some Fatal.checkNullIsolateParams)
    ∧ m2.Dispose = ([Event.drainTasks m2.platform_ m2.isolate_], none)
    ∧ m2.Dispose.1.any Event.isDisposeIsolate = false := by
  cases ho : o.newIsolateResult with
  | none => simp [NodeMainInstance.mkOwning, ho] at hown
  | some i =>
    cases iso with
    | none =>
      simp [NodeMainInstance.mkBorrowed, SetIsolateMiscHandlers] at hbor
    | some j =>
      simp [NodeMainInstance.mkOwning, ho] at hown
      simp [NodeMainInstance.mkBorrowed, SetIsolateMiscHandlers] at hbor
      subst hown
      subst hbor
      simp [NodeMainInstance.Dispose, Event.isDisposeIsolate]

/-- Witness for C2 at concrete constructions. -/
theorem c2_dispose_witness :
    mOwnEx.Dispose = ([], some Fatal.checkNullIsolateParams)
    ∧ mBorEx.Dispose = ([Event.drainTasks mBorEx.platform_ mBorEx.isolate_],
        none)
    ∧ mBorEx.Dispose.1.any Event.isDisposeIsolate = false :=
  c2_dispose none 0 0 [] [] engineOracleEx mOwnEx
    (some 3) 0 0 [] [] false mBorEx rfl rfl

/-- Claim C3: destroying a borrowed-mode Manager emits no events at all (in
particular no unregister and no instance disposal), while destroying an
owning-mode Manager unregisters the instance from the platform and then
disposes it, each exactly once. -/
theorem c3_destructor
    (sd : Option SnapshotData) (l p : Nat) (a e : List String)
    (o : EngineOracle) (m : NodeMainInstance)
    (iso : Option Nat) (l2 p2 : Nat) (a2 e2 : List String) (t : Bool)
    (m2 : NodeMainInstance)
    (hown : NodeMainInstance.mkOwning sd l p a e o = .ok m)
    (hbor : NodeMainInstance.mkBorrowed iso l2 p2 a2 e2 t = .ok m2) :
    m2.destructor = []
    ∧ m.destructor = [Event.unregisterIsolate m.platform_ m.isolate_,
        Event.disposeIsolate m.isolate_]
    ∧ m.destructor.count (Event.unregisterIsolate m.platform_ m.isolate_) = 1
    ∧ m.destructor.count (Event.disposeIsolate m.isolate_) = 1 := by
  cases ho : o.newIsolateResult with
  | none => simp [NodeMainInstance.mkOwning, ho] at hown
  | some i =>
    cases iso with
    | none =>
      simp [NodeMainInstance.mkBorrowed, SetIsolateMiscHandlers] at hbor
    | some j =>
      simp [NodeMainInstance.mkOwning, ho] at hown
      simp [NodeMainInstance.mkBorrowed, SetIsolateMiscHandlers] at hbor
      subst hown
      subst hbor
      simp [NodeMainInstance.destructor]

/-- Witness for C3 at concrete constructions. -/
theorem c3_destructor_witness :
    mBorEx.destructor = []
    ∧ mOwnEx.destructor
        = [Event.unregisterIsolate mOwnEx.platform_ mOwnEx.isolate_,
           Event.disposeIsolate mOwnEx.isolate_]
    ∧ mOwnEx.destructor.count
        (Event.unregisterIsolate mOwnEx.platform_ mOwnEx.isolate_) = 1
    ∧ mOwnEx.destructor.count (Event.disposeIsolate mOwnEx.isolate_) = 1 :=
  c3_destructor none 0 0 [] [] engineOracleEx mOwnEx
    (some 3) 0 0 [] [] false mBorEx rfl rfl

/-- Claim C4: for a Manager holding a non-null Snapshot Handle,
`CreateMainEnvironment` takes the snapshot-restore path: it never creates
a fresh context, the environment is built with the empty context handle
(read from the snapshot), the call completes without a fatal check, and —
when compiled with OpenSSL — it performs the one-time crypto
initialization. -/
theorem c4_snapshot_path (m : NodeMainInstance) (sd : SnapshotData)
    (cfg cfg2 : BuildConfig) (o : EnvOracle)
    (h : m.snapshot_data_ = some sd)
    (hssl : cfg2.have_openssl = true) :
    (m.CreateMainEnvironment cfg o).1.any Event.isNewContext = false
    ∧ (m.CreateMainEnvironment cfg o).1.any Event.isSnapshotEnvCall = true
    ∧ (m.CreateMainEnvironment cfg o).2
        = .ok (o.createEnvResult, ExitCode.kNoFailure)
    ∧ (m.CreateMainEnvironment cfg2 o).1.any Event.isInitCryptoOnce
        = true := by
  simp only [NodeMainInstance.CreateMainEnvironment, h]
  cases htr : m.isolate_data_.track_heap_objects <;>
    cases hs : cfg.have_openssl <;>
      simp [htr, hs, hssl, Event.isNewContext, Event.isSnapshotEnvCall,
        Event.isInitCryptoOnce]

/-- Witness for C4 at a concrete snapshot-holding Manager. -/
theorem c4_snapshot_path_witness :
    (mOwnSnapEx.CreateMainEnvironment cfgPlain eoOk).1.any
        Event.isNewContext = false
    ∧ (mOwnSnapEx.CreateMainEnvironment cfgPlain eoOk).1.any
        Event.isSnapshotEnvCall = true
    ∧ (mOwnSnapEx.CreateMainEnvironment cfgPlain eoOk).2
        = .ok (eoOk.createEnvResult, ExitCode.kNoFailure)
    ∧ (mOwnSnapEx.CreateMainEnvironment cfgSsl eoOk).1.any
        Event.isInitCryptoOnce = true :=
  c4_snapshot_path mOwnSnapEx { id := 1 } cfgPlain cfgSsl eoOk rfl rfl

/-- Claim C5: owning-mode construction accepts a null Snapshot Handle and
succeeds (given the engine produced an isolate); the resulting Manager has
no snapshot, and its `CreateMainEnvironment` creates a fresh non-empty
context, enters its scope, and only then builds the environment bound to
that context — contiguously in that order — completing without a fatal
check; if instead context creation yields an empty handle, the call is
fatal. -/
theorem c5_null_snapshot_fresh_path
    (l p : Nat) (a e : List String) (o : EngineOracle) (i : Nat)
    (m : NodeMainInstance) (cfg : BuildConfig) (eo eo2 : EnvOracle)
    (ctx : Nat)
    (hiso : o.newIsolateResult = some i)
    (hm : NodeMainInstance.mkOwning none l p a e o = .ok m)
    (hctx : eo.newContextResult = some ctx)
    (hctx2 : eo2.newContextResult = none) :
    m.snapshot_data_ = none
    ∧ List.IsInfix
        [Event.newContext (some ctx), Event.enterContextScope ctx,
         Event.createEnvironmentCall (some ctx)]
        (m.CreateMainEnvironment cfg eo).1
    ∧ (m.CreateMainEnvironment cfg eo).2
        = .ok (eo.createEnvResult, ExitCode.kNoFailure)
    ∧ (m.CreateMainEnvironment cfg eo2).2
        = .error Fatal.checkContextNotEmpty := by
  simp [NodeMainInstance.mkOwning, hiso] at hm
  subst hm
  refine ⟨rfl, ?_, ?_, ?_⟩
  · simp only [NodeMainInstance.CreateMainEnvironment, hctx]
    exact (List.suffix_append _ _).isInfix
  · simp [NodeMainInstance.CreateMainEnvironment, hctx]
  · simp [NodeMainInstance.CreateMainEnvironment, hctx2]

/-- Witness for C5 at a concrete null-snapshot construction. -/
theorem c5_null_snapshot_fresh_path_witness :
    mOwnEx.snapshot_data_ = none
    ∧ List.IsInfix
        [Event.newContext (some 9), Event.enterContextScope 9,
         Event.createEnvironmentCall (some 9)]
        (mOwnEx.CreateMainEnvironment cfgPlain eoOk).1
    ∧ (mOwnEx.CreateMainEnvironment cfgPlain eoOk).2
        = .ok (eoOk.createEnvResult, ExitCode.kNoFailure)
    ∧ (mOwnEx.CreateMainEnvironment cfgPlain eoNoCtx).2
        = .error Fatal.checkContextNotEmpty :=
  c5_null_snapshot_fresh_path 0 0 [] [] engineOracleEx 7 mOwnEx
    cfgPlain eoOk eoNoCtx 9 rfl rfl rfl rfl

/-- Helper: `CreateMainEnvironment` never loads an environment or spins the
event loop (those belong to the Execution Driver). -/
theorem cme_no_load (m : NodeMainInstance) (cfg : BuildConfig)
    (o : EnvOracle) :
    (m.CreateMainEnvironment cfg o).1.any Event.isLoadEnvironment = false
    ∧ (m.CreateMainEnvironment cfg o).1.any Event.isSpinEventLoop
        = false := by
  simp only [NodeMainInstance.CreateMainEnvironment]
  cases m.snapshot_data_ <;>
    cases ho : o.newContextResult <;>
      cases m.isolate_data_.track_heap_objects <;>
        cases cfg.have_openssl <;>
          simp [Event.isLoadEnvironment, Event.isSpinEventLoop]

/-- Claim C6: each fatal condition is checked where it arises and aborts
at once — a failed engine-instance creation aborts the owning constructor;
an empty fresh context aborts `CreateMainEnvironment` before any
environment-construction call; a null environment from bootstrapping
aborts `Run` before any environment loading or event-loop spinning. -/
theorem c6_fatal_checks
    (sd : Option SnapshotData) (l p : Nat) (a e : List String)
    (o : EngineOracle)
    (m : NodeMainInstance) (cfg : BuildConfig) (eo : EnvOracle)
    (m2 : NodeMainInstance) (cfg2 : BuildConfig) (ro : RunOracle)
    (ec : ExitCode)
    (ho : o.newIsolateResult = none)
    (hsn : m.snapshot_data_ = none)
    (hctx : eo.newContextResult = none)
    (hcme : (m2.CreateMainEnvironment cfg2 ro.cme).2 = .ok (none, ec)) :
    NodeMainInstance.mkOwning sd l p a e o
        = .error Fatal.checkNotNullIsolate
    ∧ (m.CreateMainEnvironment cfg eo).2
        = .error Fatal.checkContextNotEmpty
    ∧ (m.CreateMainEnvironment cfg eo).1.any Event.isCreateEnvironmentCall
        = false
    ∧ (m2.Run cfg2 ro).2 = .error Fatal.checkNotNullEnv
    ∧ (m2.Run cfg2 ro).1.any Event.isLoadEnvironment = false
    ∧ (m2.Run cfg2 ro).1.any Event.isSpinEventLoop = false := by
  refine ⟨?_, ?_, ?_, ?_, ?_, ?_⟩
  · simp [NodeMainInstance.mkOwning, ho]
  · simp [NodeMainInstance.CreateMainEnvironment, hsn, hctx]
  · simp only [NodeMainInstance.CreateMainEnvironment, hsn, hctx]
    cases m.isolate_data_.track_heap_objects <;>
      simp [Event.isCreateEnvironmentCall]
  · simp [NodeMainInstance.Run, hcme]
  · simp [NodeMainInstance.Run, hcme, Event.isLoadEnvironment,
      (cme_no_load m2 cfg2 ro.cme).1]
  · simp [NodeMainInstance.Run, hcme, Event.isSpinEventLoop,
      (cme_no_load m2 cfg2 ro.cme).2]

/-- An engine oracle whose isolate creation fails. -/
def engineOracleFail : EngineOracle :=
  { allocatorId := 5
    newIsolateResult := none
    maxYoungGenSize := 64
    trackHeapObjects := false }

/-- A run whose environment bootstrapping returns null. -/
def roNullEnv : RunOracle := { cme := eoNullEnv, spinResult := none }

/-- Witness for C6 at concrete inputs: a failed isolate creation, an empty
fresh context, and a null environment from the snapshot path. -/
theorem c6_fatal_checks_witness :
    NodeMainInstance.mkOwning none 0 0 [] [] engineOracleFail
        = .error Fatal.checkNotNullIsolate
    ∧ (mOwnEx.CreateMainEnvironment cfgPlain eoNoCtx).2
        = .error Fatal.checkContextNotEmpty
    ∧ (mOwnEx.CreateMainEnvironment cfgPlain eoNoCtx).1.any
        Event.isCreateEnvironmentCall = false
    ∧ (mOwnSnapEx.Run cfgPlain roNullEnv).2 = .error Fatal.checkNotNullEnv
    ∧ (mOwnSnapEx.Run cfgPlain roNullEnv).1.any Event.isLoadEnvironment
        = false
    ∧ (mOwnSnapEx.Run cfgPlain roNullEnv).1.any Event.isSpinEventLoop
        = false :=
  c6_fatal_checks none 0 0 [] [] engineOracleFail
    mOwnEx cfgPlain eoNoCtx mOwnSnapEx cfgPlain roNullEnv
    ExitCode.kNoFailure rfl rfl rfl rfl

/-- Claim C7: the Execution Driver loads the environment and spins the
event loop exactly when the incoming exit code is `kNoFailure`, in which
case the result is the loop's termination value defaulting to
`kGenericUserError`; for any other incoming exit code it does neither and
returns the exit code unchanged. -/
theorem c7_execution_driver (cfg : BuildConfig) (env : Nat)
    (ec : ExitCode) (spin : Option ExitCode) :
    (NodeMainInstance.RunEnv cfg env ec spin).2
      = (if ec = ExitCode.kNoFailure
          then spin.getD ExitCode.kGenericUserError else ec)
    ∧ (NodeMainInstance.RunEnv cfg env ec spin).1.any Event.isLoadEnvironment
      = (if ec = ExitCode.kNoFailure then true else false)
    ∧ (NodeMainInstance.RunEnv cfg env ec spin).1.any Event.isSpinEventLoop
      = (if ec = ExitCode.kNoFailure then true else false) := by
  by_cases h : ec = ExitCode.kNoFailure <;>
    cases hls : cfg.leak_sanitizer <;>
      simp [NodeMainInstance.RunEnv, h, hls, Event.isLoadEnvironment,
        Event.isSpinEventLoop]

/-- Helper: the exit-code stores of `CreateMainEnvironment` are exactly
one store of `kNoFailure` (the reset at line 137), on every path. -/
theorem cme_exit_writes (m : NodeMainInstance) (cfg : BuildConfig)
    (o : EnvOracle) :
    exitCodeWrites (m.CreateMainEnvironment cfg o).1
      = [ExitCode.kNoFailure] := by
  simp only [NodeMainInstance.CreateMainEnvironment]
  cases m.snapshot_data_ <;>
    cases o.newContextResult <;>
      cases m.isolate_data_.track_heap_objects <;>
        cases cfg.have_openssl <;>
          simp [exitCodeWrites]

/-- Helper: `CreateMainEnvironment` either aborts on an empty fresh
context or completes with the bootstrapped environment and a `kNoFailure`
exit code. -/
theorem cme_ok_shape (m : NodeMainInstance) (cfg : BuildConfig)
    (o : EnvOracle) :
    (m.CreateMainEnvironment cfg o).2 = .error Fatal.checkContextNotEmpty
    ∨ (m.CreateMainEnvironment cfg o).2
        = .ok (o.createEnvResult, ExitCode.kNoFailure) := by
  simp only [NodeMainInstance.CreateMainEnvironment]
  cases m.snapshot_data_ <;> cases o.newContextResult <;> simp

/-- Helper: `exitCodeWrites` distributes over trace concatenation. -/
theorem exitCodeWrites_append (a b : List Event) :
    exitCodeWrites (a ++ b) = exitCodeWrites a ++ exitCodeWrites b := by
  simp [exitCodeWrites]

/-- Helper: an exit-code store at the head of a trace heads the write
sequence. -/
theorem exitCodeWrites_cons_set (c : ExitCode) (l : List Event) :
    exitCodeWrites (Event.setExitCode c :: l) = c :: exitCodeWrites l := by
  simp [exitCodeWrites]

/-- Helper: the last element of a three-element list. -/
theorem getLast_three (a b c : ExitCode) :
    ([a, b, c] : List ExitCode).getLast? = some c := rfl

/-- Helper: the Execution Driver entered with `kNoFailure` stores exactly
one exit code, namely the one it returns. -/
theorem runenv_writes (cfg : BuildConfig) (env : Nat)
    (spin : Option ExitCode) :
    exitCodeWrites
        (NodeMainInstance.RunEnv cfg env ExitCode.kNoFailure spin).1
      = [(NodeMainInstance.RunEnv cfg env ExitCode.kNoFailure spin).2] := by
  cases hls : cfg.leak_sanitizer <;>
    simp [NodeMainInstance.RunEnv, hls, exitCodeWrites]

/-- Claim C8: across one full `Run()` that returns, the sequence of values
stored in the Exit Code starts at `kNoFailure`, never replaces an
already-stored failure value (no downgrade), and its last store is exactly
the code returned to the caller. -/
theorem c8_exit_code_monotone (m : NodeMainInstance) (cfg : BuildConfig)
    (o : RunOracle) (ec : ExitCode)
    (hr : (m.Run cfg o).2 = .ok ec) :
    noDowngradeB (exitCodeWrites (m.Run cfg o).1) = true
    ∧ (exitCodeWrites (m.Run cfg o).1).head? = some ExitCode.kNoFailure
    ∧ (exitCodeWrites (m.Run cfg o).1).getLast? = some ec := by
  rcases hcme : (m.CreateMainEnvironment cfg o.cme).2 with f | v
  · simp [NodeMainInstance.Run, hcme] at hr
  · rcases cme_ok_shape m cfg o.cme with hsh | hsh
    · rw [hcme] at hsh
      simp at hsh
    · rw [hcme] at hsh
      replace hsh : v = (o.cme.createEnvResult, ExitCode.kNoFailure) := by
        simpa using hsh
      subst hsh
      cases hce : o.cme.createEnvResult with
      | none =>
        rw [hce] at hcme
        simp [NodeMainInstance.Run, hcme] at hr
      | some env =>
        rw [hce] at hcme
        simp only [NodeMainInstance.Run, hcme] at hr ⊢
        simp only [Except.ok.injEq] at hr
        subst hr
        refine ⟨?_, ?_, ?_⟩ <;>
          simp [exitCodeWrites_cons_set, exitCodeWrites_append,
            cme_exit_writes, runenv_writes, noDowngradeB, getLast_three]

/-- A run over context 9 and environment 2 whose event loop terminates
with code `kOther 3`. -/
def roFailSpin : RunOracle := { cme := eoOk, spinResult := some (.kOther 3) }

/-- Witness for C8 on a run whose loop reports failure code 3. -/
theorem c8_exit_code_monotone_witness :
    noDowngradeB (exitCodeWrites (mOwnEx.Run cfgPlain roFailSpin).1) = true
    ∧ (exitCodeWrites (mOwnEx.Run cfgPlain roFailSpin).1).head?
        = some ExitCode.kNoFailure
    ∧ (exitCodeWrites (mOwnEx.Run cfgPlain roFailSpin).1).getLast?
        = some (ExitCode.kOther 3) :=
  c8_exit_code_monotone mOwnEx cfgPlain roFailSpin (ExitCode.kOther 3) rfl

/-- Claim C9: constructing a borrowed-mode Manager around a null engine
instance aborts fatally, before any Manager exists. -/
theorem c9_null_borrow_fatal (l p : Nat) (a e : List String) (t : Bool) :
    NodeMainInstance.mkBorrowed none l p a e t
      = .error Fatal.checkNotNullIsolateOnBorrow := by
  simp [NodeMainInstance.mkBorrowed, SetIsolateMiscHandlers]

/-- Claim C10: every borrowed-mode Manager is constructed with a null
Snapshot Handle (and, the embedded state being immutable, keeps it for
its lifetime), so its `CreateMainEnvironment` always creates a fresh
context and never builds the environment from a snapshot nor performs the
snapshot-path crypto initialization — under any build configuration and
any collaborator results. -/
theorem c10_borrowed_always_fresh (iso : Option Nat) (l p : Nat)
    (a e : List String) (t : Bool) (m : NodeMainInstance)
    (cfg : BuildConfig) (o : EnvOracle)
    (h : NodeMainInstance.mkBorrowed iso l p a e t = .ok m) :
    m.snapshot_data_ = none
    ∧ (m.CreateMainEnvironment cfg o).1.any Event.isSnapshotEnvCall = false
    ∧ (m.CreateMainEnvironment cfg o).1.any Event.isInitCryptoOnce = false
    ∧ (m.CreateMainEnvironment cfg o).1.any Event.isNewContext = true := by
  cases iso with
  | none => simp [NodeMainInstance.mkBorrowed, SetIsolateMiscHandlers] at h
  | some j =>
    simp [NodeMainInstance.mkBorrowed, SetIsolateMiscHandlers] at h
    subst h
    refine ⟨rfl, ?_, ?_, ?_⟩ <;>
      · simp only [NodeMainInstance.CreateMainEnvironment]
        cases o.newContextResult <;> cases t <;>
          simp [Event.isSnapshotEnvCall, Event.isInitCryptoOnce,
            Event.isNewContext]

/-- Witness for C10 at a concrete borrowed Manager in an OpenSSL build. -/
theorem c10_borrowed_always_fresh_witness :
    mBorEx.snapshot_data_ = none
    ∧ (mBorEx.CreateMainEnvironment cfgSsl eoOk).1.any
        Event.isSnapshotEnvCall = false
    ∧ (mBorEx.CreateMainEnvironment cfgSsl eoOk).1.any
        Event.isInitCryptoOnce = false
    ∧ (mBorEx.CreateMainEnvironment cfgSsl eoOk).1.any
        Event.isNewContext = true :=
  c10_borrowed_always_fresh (some 3) 0 0 [] [] false mBorEx cfgSsl eoOk rfl

end node
